import Mathlib

/-!
Verification of `num2words_CH` (Swiss-German number-to-words normalization).

This file shallowly embeds the parts of the repository that the checked
properties are about:

* the span data model and the priority-aware overlap resolver of
  `src/num2words/detect_convert_ch_numbers.py` (`detect_number_spans`),
* the adapter loop that turns temporal-tagger output into DATE/TIME spans,
* the ordinal-context validator `_is_ordinal_context` over morphological
  tagger output,
* the dialect `merge` step of `lang_CH_BS.py` / `lang_CH_SG.py`,
* the per-kind replacement generation and text rewriting of
  `convert_numbers` (St. Gallen tables),
* `Num2Word_CH_SG.to_currency`.

External collaborators (the temporal tagger, the spaCy morphological
tagger, regex candidate matchers) are modelled as inputs: the functions
below take the collaborator's output as an argument, exactly where the
Python code consumes it.  Machine-level details that the repository does
not contain (the `num2words` dispatch module `num2words_CH.py` and the
`lang_EU`/base-class cardinal decomposition are imported by the code but
are not part of the source tree) are modelled from the specification and
marked as such.
-/

set_option maxRecDepth 4000

/-- Declension payload attached to an accepted ORDINAL candidate by
`_is_ordinal_context`: the dict
`{"declension": ..., "gender": ..., "case": ...}`; `case` is called `cas`
here because `case` clashes with Lean syntax. -/
structure Declension where
  declension : String
  gender : String
  cas : String
  deriving DecidableEq, Repr

/-- Structured value payload of a span: the TIME dict
`{"HOUR": ..., "MINUTE": ...}`, the DATE dict
`{"YEAR": ..., "MONTH": ..., "DAY": ...}` (absent components are `none`),
or the ordinal declension dict. -/
inductive SpanValue where
  | timeV (hour minute : Option Nat)
  | dateV (year month day : Option Nat)
  | ordV (d : Declension)
  deriving DecidableEq, Repr

/-- Span kinds are strings in the source (`NumberKind` is a `Literal` of
strings); the embedding keeps them as `String`. A detected span mirrors the
`NumberSpan` dataclass of `detect_convert_ch_numbers.py`; Python's `end`
field is called `stop` here because `end` is a Lean keyword. -/
structure NumberSpan where
  kind : String
  text : String
  start : Nat
  stop : Nat
  value : Option SpanValue := none
  deriving DecidableEq, Repr

/-- Priority table `KIND_PRIORITY` of `detect_number_spans`
(`detect_convert_ch_numbers.py`, lines 316-327); `dict.get(kind, 99)`
yields 99 for unlisted kinds. -/
def kindPriority (k : String) : Nat :=
  if k = "DATE" then 0
  else if k = "TIME" then 0
  else if k = "PHONE" then 1
  else if k = "ZIP" then 2
  else if k = "ORDINAL" then 3
  else if k = "YEAR" then 4
  else if k = "MONEY" then 5
  else if k = "CAR_PLATE" then 6
  else if k = "MODEL" then 7
  else if k = "NUMBER" then 8
  else 99

/-- Sort key `(KIND_PRIORITY.get(kind, 99), start, -(end - start))` used at
line 330; the third component is the negated length, kept as an `Int`. -/
def keyLE (a b : NumberSpan) : Bool :=
  decide (kindPriority a.kind < kindPriority b.kind ∨
    (kindPriority a.kind = kindPriority b.kind ∧
      (a.start < b.start ∨
        (a.start = b.start ∧
          ((a.start : Int) - a.stop) ≤ ((b.start : Int) - b.stop)))))

/-- Stable insertion into a key-sorted list; an element is placed before the
first element it compares `≤` to, which preserves the relative order of
equal keys, as Python's stable `list.sort` does. -/
def insertLE (x : NumberSpan) : List NumberSpan → List NumberSpan
  | [] => [x]
  | y :: ys => if keyLE x y then x :: y :: ys else y :: insertLE x ys

/-- Stable sort by `keyLE`, modelling `spans.sort(key=...)` at line 330. -/
def sortSpans (l : List NumberSpan) : List NumberSpan :=
  l.foldr insertLE []

/-- Python's containment test at line 335:
`span.start >= s.start and span.end <= s.end` (is `a` inside `b`). -/
def containedB (a b : NumberSpan) : Bool :=
  decide (b.start ≤ a.start ∧ a.stop ≤ b.stop)

/-- Python's overlap test at line 339:
`not (span.end <= s.start or span.start >= s.end)`. -/
def overlapB (a b : NumberSpan) : Bool :=
  !(decide (a.stop ≤ b.start ∨ b.stop ≤ a.start))

/-- Two spans occupying disjoint half-open ranges. -/
def SpanDisjoint (a b : NumberSpan) : Prop :=
  a.stop ≤ b.start ∨ b.stop ≤ a.start

instance (a b : NumberSpan) : Decidable (SpanDisjoint a b) := by
  unfold SpanDisjoint; infer_instance

/-- The filtering walk of `detect_number_spans` (lines 332-342): skip a
candidate fully inside an accepted span, skip a candidate partially
overlapping an accepted span, otherwise accept it. -/
def resolveLoop : List NumberSpan → List NumberSpan → List NumberSpan
  | [], acc => acc
  | s :: rest, acc =>
    if acc.any (fun k => containedB s k) then resolveLoop rest acc
    else if acc.any (fun k => overlapB s k) then resolveLoop rest acc
    else resolveLoop rest (acc ++ [s])

/-- Overlap resolution of `detect_number_spans`: priority-aware stable sort
followed by the filtering walk (lines 330-344). -/
def resolveSpans (l : List NumberSpan) : List NumberSpan :=
  resolveLoop (sortSpans l) []

/-- Merge step of the Basel cardinal algorithm,
`Num2Word_CH_BS.merge` (`lang_CH_BS.py`, lines 91-120), translated
branch-for-branch from the Python method. -/
def Num2Word_CH_BS.merge (curr next : String × Nat) : String × Nat :=
  let ctext := curr.1
  let cnum := curr.2
  let ntext := next.1
  let nnum := next.2
  if cnum = 1 ∧ (nnum = 100 ∨ nnum = 1000) then ("ei" ++ ntext, nnum)
  else if cnum = 1 ∧ nnum < 10 ^ 6 then next
  else
    let ctext1 := if cnum = 1 then "ei" else ctext
    if cnum < nnum then
      let ntext1 :=
        if 10 ^ 6 ≤ nnum ∧ 1 < cnum ∧ ntext.endsWith "e" then ntext ++ "n"
        else ntext
      let ctext2 := if 10 ^ 6 ≤ nnum then ctext1 ++ " " else ctext1
      (ctext2 ++ ntext1, cnum * nnum)
    else
      if nnum < 10 ∧ 10 < cnum ∧ cnum < 100 then
        let ntext1 := if nnum = 1 then "ein" else ntext
        (ntext1 ++ "ä" ++ ctext1, cnum + nnum)
      else
        let ctext2 := if 10 ^ 6 ≤ cnum then ctext1 ++ " " else ctext1
        (ctext2 ++ ntext, cnum + nnum)

/-- Merge step of the St. Gallen cardinal algorithm,
`Num2Word_CH_SG.merge` (`lang_CH_SG.py`, lines 130-159); the method body is
textually identical to the Basel one. -/
def Num2Word_CH_SG.merge (curr next : String × Nat) : String × Nat :=
  let ctext := curr.1
  let cnum := curr.2
  let ntext := next.1
  let nnum := next.2
  if cnum = 1 ∧ (nnum = 100 ∨ nnum = 1000) then ("ei" ++ ntext, nnum)
  else if cnum = 1 ∧ nnum < 10 ^ 6 then next
  else
    let ctext1 := if cnum = 1 then "ei" else ctext
    if cnum < nnum then
      let ntext1 :=
        if 10 ^ 6 ≤ nnum ∧ 1 < cnum ∧ ntext.endsWith "e" then ntext ++ "n"
        else ntext
      let ctext2 := if 10 ^ 6 ≤ nnum then ctext1 ++ " " else ctext1
      (ctext2 ++ ntext1, cnum * nnum)
    else
      if nnum < 10 ∧ 10 < cnum ∧ cnum < 100 then
        let ntext1 := if nnum = 1 then "ein" else ntext
        (ntext1 ++ "ä" ++ ctext1, cnum + nnum)
      else
        let ctext2 := if 10 ^ 6 ≤ cnum then ctext1 ++ " " else ctext1
        (ctext2 ++ ntext, cnum + nnum)

/-- Output element of the `heideltime` wrapper (`py_heideltime.py`,
`_get_timexs`): a dict with a `text` entry, optional `type`/`value`
attributes parsed from the TIMEX3 tag, and an optional `span` pair.
Fields that the detection loop reads with `dict[...]`/`dict.get(...)` are
`Option`s so that a missing key can be modelled. -/
structure Timex where
  type? : Option String
  text : String
  span : Option (Int × Int)
  value : Option String
  deriving DecidableEq, Repr

/-- Helper lambda `convert_numbers_to_int` of
`detect_convert_ch_numbers.py` line 14:
`int(number) if number.isdigit() else None`. -/
def convert_numbers_to_int (s : String) : Option Nat :=
  if s ≠ "" ∧ s.data.all Char.isDigit then
    some (s.data.foldl (fun a c => a * 10 + (c.toNat - 48)) 0)
  else none

/-- Clamp a (possibly negative) Python slice index into `[0, n]`. -/
def pySliceIdx (n : Nat) (i : Int) : Nat :=
  if i < 0 then (max 0 ((n : Int) + i)).toNat else min i.toNat n

/-- Python slice `s[a:b]` with negative-index semantics. -/
def pySubstr (s : String) (a b : Int) : String :=
  (s.take (pySliceIdx s.length b)).drop (pySliceIdx s.length a)

/-- Python slice `s[a:]` with negative-index semantics. -/
def pySubstrFrom (s : String) (a : Int) : String :=
  s.drop (pySliceIdx s.length a)

/-- Characters after the first `'T'` of the list, `none` when there is no
`'T'`. -/
def afterFirstT : List Char → Option (List Char)
  | [] => none
  | 'T' :: r => some r
  | _ :: r => afterFirstT r

/-- Python `value.split("T")[1]`: the segment between the first and the
second `"T"` (to the end when there is no second one); `none` models the
`IndexError` raised when the string has no `"T"` at all. -/
def splitTpart (v : String) : Option String :=
  match afterFirstT v.data with
  | none => none
  | some rest => some (String.mk (rest.takeWhile (fun c => c ≠ 'T')))

/-- Numeric value of a digit string (used where Python calls `int(...)` on
text already known to be digits). -/
def natFromDigitsL (l : List Char) : Nat :=
  l.foldl (fun a c => a * 10 + (c.toNat - 48)) 0

/-- Group parser `parse` inside `extract_date_parts`: placeholder values
`""`, `"XX"`, `"XXXX"` (and a missing group) become `None`, anything else
is read as an integer. -/
def parsePart (l : List Char) : Option Nat :=
  if l = [] ∨ l = ['X', 'X'] ∨ l = ['X', 'X', 'X', 'X'] then none
  else some (natFromDigitsL l)

/-- Year alternative `(\d{4}|XXXX)` of `DATE_PATTERN` followed by the
literal `-`: four digits are tried first, then the placeholder. Returns the
group and the remaining input. -/
def yearAlt (l : List Char) : Option (List Char × List Char) :=
  match l with
  | c1 :: c2 :: c3 :: c4 :: '-' :: r =>
    if c1.isDigit ∧ c2.isDigit ∧ c3.isDigit ∧ c4.isDigit then
      some ([c1, c2, c3, c4], r)
    else if c1 = 'X' ∧ c2 = 'X' ∧ c3 = 'X' ∧ c4 = 'X' then
      some (['X', 'X', 'X', 'X'], r)
    else none
  | _ => none

/-- Month alternative `(\d{0,2}|XX)` of `DATE_PATTERN` followed by the
literal `-`, with the greedy-then-backtrack order of the regex engine:
two digits, one digit, zero digits, then the `XX` placeholder. -/
def monthAlt (l : List Char) : Option (List Char × List Char) :=
  match l with
  | c1 :: c2 :: c3 :: r =>
    if c1.isDigit ∧ c2.isDigit ∧ c3 = '-' then some ([c1, c2], r)
    else if c1.isDigit ∧ c2 = '-' then some ([c1], c3 :: r)
    else if c1 = '-' then some ([], c2 :: c3 :: r)
    else if c1 = 'X' ∧ c2 = 'X' ∧ c3 = '-' then some (['X', 'X'], r)
    else none
  | [c1, c2] =>
    if c1.isDigit ∧ c2 = '-' then some ([c1], [])
    else if c1 = '-' then some ([], [c2])
    else none
  | [c1] => if c1 = '-' then some ([], []) else none
  | [] => none

/-- Day group `(\d{0,2}|XX)` at the end of `DATE_PATTERN`: the greedy
first alternative always succeeds, taking up to two leading digits. -/
def dayAlt (l : List Char) : List Char :=
  match l with
  | c1 :: c2 :: _ =>
    if c1.isDigit ∧ c2.isDigit then [c1, c2]
    else if c1.isDigit then [c1] else []
  | [c1] => if c1.isDigit then [c1] else []
  | [] => []

/-- One anchored attempt of `DATE_PATTERN` at the head of the input. -/
def matchDateAt (l : List Char) : Option (List Char × List Char × List Char) :=
  match yearAlt l with
  | none => none
  | some (y, r1) =>
    match monthAlt r1 with
    | none => none
    | some (m, r2) => some (y, m, dayAlt r2)

/-- `DATE_PATTERN.search`: try the anchored match at every position, taking
the leftmost success. -/
def dateSearch : List Char → Option (List Char × List Char × List Char)
  | [] => none
  | c :: rest =>
    match matchDateAt (c :: rest) with
    | some x => some x
    | none => dateSearch rest

/-- `extract_date_parts` (`detect_convert_ch_numbers.py`, lines 36-54):
pad a bare year or year-month value with placeholder components, search for
the date pattern, and parse the three groups. -/
def extract_date_parts (v : String) : Option Nat × Option Nat × Option Nat :=
  let v1 := if v.length = 4 then v ++ "-XX-XX" else v
  let v2 := if v1.length = 7 then v1 ++ "-XX" else v1
  match dateSearch v2.data with
  | none => (none, none, none)
  | some (y, m, d) => (parsePart y, parsePart m, parsePart d)

/-- ASCII approximation of Python's regex word character `\w`. -/
def wordChar (c : Char) : Bool := c.isAlphanum || c = '_'

/-- Length of the match of `re.match(r"^Jahr\s+(?=\d{4}\b)", text)` used to
trim a leading filler word from a DATE span (line 277), `none` when the
pattern does not match. -/
def jahrStartDelta (t : String) : Option Nat :=
  match t.data with
  | 'J' :: 'a' :: 'h' :: 'r' :: rest =>
    let ws := rest.takeWhile Char.isWhitespace
    if ws.length = 0 then none
    else
      match rest.drop ws.length with
      | d1 :: d2 :: d3 :: d4 :: tail =>
        if d1.isDigit && d2.isDigit && d3.isDigit && d4.isDigit &&
            (match tail with | [] => true | c :: _ => ! wordChar c) then
          some (4 + ws.length)
        else none
      | _ => none
  | _ => none

/-- Length of the match of `re.search(r"(?<=\b\d{4})\s+Jahr$", text)` used
to trim a trailing filler word from a DATE span (line 283), measured from
the match start to the end of the string (`len(text) - m_end.start()`). -/
def jahrEndDelta (t : String) : Option Nat :=
  match t.data.reverse with
  | 'r' :: 'h' :: 'a' :: 'J' :: rest =>
    let ws := rest.takeWhile Char.isWhitespace
    if ws.length = 0 then none
    else
      match rest.drop ws.length with
      | d1 :: d2 :: d3 :: d4 :: tail =>
        if d1.isDigit && d2.isDigit && d3.isDigit && d4.isDigit &&
            (match tail with | [] => true | c :: _ => ! wordChar c) then
          some (4 + ws.length)
        else none
      | _ => none
  | _ => none

/-- Processing of one `heideltime` result inside the `try` block of
`detect_number_spans` (`detect_convert_ch_numbers.py`, lines 262-289).
`Except.error ()` models an exception escaping the loop body (missing
`type` key, missing `value`, a TIME value without a `"T"` separator, a
DATE with a `None` value); `Except.ok none` models a silently skipped
entry (no span, foreign type, out-of-bounds span). -/
def processTimex (textLen : Nat) (tx : Timex) : Except Unit (Option NumberSpan) :=
  match tx.span with
  | none => .ok none
  | some (s0, e0) =>
    match tx.type? with
    | none => .error ()
    | some ty =>
      if ty = "DATE" ∨ ty = "TIME" then
        let s := s0 - 1
        let e := e0 - 1
        if 0 ≤ s ∧ s < e ∧ e ≤ (textLen : Int) then
          if ty = "TIME" then
            match tx.value with
            | none => .error ()
            | some v =>
              match splitTpart v with
              | none => .error ()
              | some tp =>
                .ok (some
                  { kind := "TIME", text := tx.text,
                    start := s.toNat, stop := e.toNat,
                    value := some (.timeV
                      (convert_numbers_to_int (pySubstr tp (-5) (-3)))
                      (convert_numbers_to_int (pySubstrFrom tp (-2)))) })
          else
            match tx.value with
            | none => .error ()
            | some v =>
              let s1 := s + ((jahrStartDelta tx.text).getD 0 : Nat)
              let e1 := e - ((jahrEndDelta tx.text).getD 0 : Nat)
              let p := extract_date_parts v
              .ok (some
                { kind := "DATE", text := tx.text,
                  start := s1.toNat, stop := e1.toNat,
                  value := some (.dateV p.1 p.2.1 p.2.2) })
        else .ok none
      else .ok none

/-- The `for timex in timexs` loop inside the `try` of
`detect_number_spans`: an exception aborts the loop but keeps the spans
appended so far (the surrounding `except Exception: pass` swallows it). -/
def temporalLoop (textLen : Nat) : List Timex → List NumberSpan → List NumberSpan
  | [], acc => acc
  | tx :: rest, acc =>
    match processTimex textLen tx with
    | .error _ => acc
    | .ok none => temporalLoop textLen rest acc
    | .ok (some sp) => temporalLoop textLen rest (acc ++ [sp])

/-- DATE/TIME candidates contributed by the temporal adapter: a failing
`heideltime` call (`Except.error`) is swallowed by the `except` and
contributes nothing. -/
def heidelSpans (textLen : Nat) (hres : Except Unit (List Timex)) : List NumberSpan :=
  match hres with
  | .error _ => []
  | .ok txs => temporalLoop textLen txs []

/-- `detect_number_spans` (`detect_convert_ch_numbers.py`, lines 252-344).
The external collaborators are inputs: `hres` is the outcome of the
`heideltime` call, and `phoneC`, `ordC`, `zipC`, `numC` are the candidate
spans produced by the PHONE, ORDINAL (spaCy-validated), ZIP
(context-validated) and NUMBER matchers, appended in the order of the
source. The result is the priority-aware overlap resolution of all
candidates. -/
def detect_number_spans (textLen : Nat) (hres : Except Unit (List Timex))
    (phoneC ordC zipC numC : List NumberSpan) : List NumberSpan :=
  resolveSpans (heidelSpans textLen hres ++ phoneC ++ ordC ++ zipC ++ numC)

/-- A token of the morphological tagger's analysis of the context window,
carrying the fields `_is_ordinal_context` and `get_declension_type` read:
`idx` (character offset of the token in the window), `pos` (`token.pos_`),
the `Gender`/`Case` morphological features (`none` models an empty
`morph.get(...)` list, whose `[0]` raises), whether the `Number` feature
equals `["Plur"]`, and the `Definite` feature of the determiner child of
the token's head (`none` = the head has no `DET` child, `some none` = a
determiner without a `Definite` feature). -/
structure Token where
  idx : Nat
  pos : String
  gender : Option String
  cas : Option String
  numberPlur : Bool
  headDetDefinite : Option (Option String)
  deriving DecidableEq, Repr

/-- `get_declension_type` (`detect_convert_ch_numbers.py`, lines 434-458):
a definite article gives weak declension, an indefinite/other article
mixed, no article strong. -/
def get_declension_type (tok : Token) : String :=
  match tok.headDetDefinite with
  | none => "stark"
  | some (some d) => if d = "Def" then "schwach" else "gemischt"
  | some none => "gemischt"

/-- The token-locating predicate of `_is_ordinal_context` (line 141):
`token.idx >= offset and token.idx < offset + len(number_str)`. -/
def _number_token_at (offset nlen : Nat) (t : Token) : Bool :=
  decide (offset ≤ t.idx ∧ t.idx < offset + nlen)

/-- `_is_ordinal_context` (`detect_convert_ch_numbers.py`, lines 116-163)
with the tagger's analysis `doc` as input. `offset` is the candidate's
position inside the context window and `nlen` the length of its digit part
(the call sites only pass matches of `\b\d+\.`, so the leading-digits
`re.match` always succeeds). The `try` body indexes `morph.get("Gender")[0]`
and `morph.get("Case")[0]`; a missing feature raises and the `except`
returns `(False, None)`. -/
def _is_ordinal_context (doc : List Token) (offset nlen : Nat) :
    Bool × Option Declension :=
  match doc.findIdx? (_number_token_at offset nlen) with
  | none => (false, none)
  | some i =>
    match doc[i]? with
    | none => (false, none)
    | some tok =>
      if i = 0 then (false, none)
      else
        match doc[i - 1]? with
        | none => (false, none)
        | some prev =>
          if prev.pos = "DET" ∨ prev.pos = "ADP" then
            match tok.gender, tok.cas with
            | some g, some c =>
              let g1 := if tok.numberPlur then "Plur" else g
              (true, some
                { declension := (get_declension_type tok).toLower,
                  gender := g1.toLower, cas := c.toLower })
            | _, _ => (false, none)
          else (false, none)

/-- Acceptance condition of `_is_ordinal_context` spelled out declaratively
(used to compare the implementation against the specification's wording):
the tagger locates the numeral token, a token immediately precedes it, that
token's category is determiner or adposition, and the numeral token carries
both a gender and a case feature. -/
def ordinalAcceptedSpec (doc : List Token) (offset nlen : Nat) : Prop :=
  ∃ i tok prev,
    doc.findIdx? (_number_token_at offset nlen) = some i ∧
    i ≠ 0 ∧
    doc[i]? = some tok ∧
    doc[i - 1]? = some prev ∧
    (prev.pos = "DET" ∨ prev.pos = "ADP") ∧
    tok.gender.isSome ∧ tok.cas.isSome

/-- Words for 0-20, `low_numwords` of `Num2Word_CH_SG.setup`
(`lang_CH_SG.py`, lines 77-81), listed there from 20 down to 0. -/
def sgLowList : List String :=
  ["null", "eis", "zwei", "drü", "vio", "füf", "sechs", "siebe", "acht",
   "nün", "zäh", "elf", "zwölf", "drizäh", "vierzäh", "füfzäh", "sechzäh",
   "siebzäh", "achzäh", "nünzäh", "zwanzg"]

/-- Word for a value in 0-20 (St. Gallen). -/
def sgLow (n : Nat) : String := sgLowList.getD n ""

/-- Tens words 30-90, `mid_numwords` of `Num2Word_CH_SG.setup`
(`lang_CH_SG.py`, lines 73-76). -/
def sgMid (n : Nat) : String :=
  if n = 30 then "driisg"
  else if n = 40 then "vierzg"
  else if n = 50 then "füfzg"
  else if n = 60 then "sechzg"
  else if n = 70 then "siebezg"
  else if n = 80 then "achzg"
  else if n = 90 then "nünzg"
  else ""

/-- Word-value pair for a multiple of ten below 100; 20 lives in the low
table, 30-90 in the mid table. -/
def sgTensPair (t : Nat) : String × Nat :=
  if t = 20 then (sgLow 20, 20) else (sgMid t, t)

/-- Modelled from the spec: the base-class decomposition (`lang_EU` /
`num2words` base, imported by the source but not part of this repository)
splits a value below 100 into magnitude-ordered fragments and folds them
with the dialect `merge`; for such values the fold reduces to merging the
tens word with the unit word. -/
def cardPair100 (n : Nat) : String × Nat :=
  if n ≤ 20 then (sgLow n, n)
  else
    let u := n % 10
    let t := n - u
    if u = 0 then sgTensPair t
    else Num2Word_CH_SG.merge (sgTensPair t) (sgLow u, u)

/-- Modelled from the spec: fragment fold for values below 1000 — the
hundreds count merges with the word for 100, then the sub-hundred rest is
merged on (the missing base class builds the same pairs recursively). -/
def cardPair1000 (n : Nat) : String × Nat :=
  if n < 100 then cardPair100 n
  else
    let h := n / 100
    let r := n % 100
    let hw := Num2Word_CH_SG.merge (cardPair100 h) ("hundert", 100)
    if r = 0 then hw else Num2Word_CH_SG.merge hw (cardPair100 r)

/-- Modelled from the spec: `to_cardinal` of the St. Gallen dialect for
values below one million (the range every span in the checked claims stays
in) — the thousands count merges with the word for 1000 via
`Num2Word_CH_SG.merge`, then the rest is merged on. -/
def Num2Word_CH_SG.to_cardinal (n : Nat) : String :=
  if n < 1000 then (cardPair1000 n).1
  else
    let th := n / 1000
    let r := n % 1000
    let tw := Num2Word_CH_SG.merge (cardPair1000 th) ("tuusig", 1000)
    if r = 0 then tw.1 else (Num2Word_CH_SG.merge tw (cardPair1000 r)).1

/-- Modelled from the spec: the `num2words(...)` dispatch module
(`num2words_CH.py` is imported by `detect_convert_ch_numbers.py` but is not
in the source tree); on a digit string it parses the integer and renders
the St. Gallen cardinal. -/
def num2wordsStr (s : String) : String :=
  Num2Word_CH_SG.to_cardinal (natFromDigitsL s.data)

/-- Irregular ordinal-stem table `self.ords` of `Num2Word_CH_SG.setup`
(`lang_CH_SG.py`, lines 82-95), in dict insertion order. -/
def sgOrds : List (String × String) :=
  [("eis", "ers"), ("drei", "drit"), ("acht", "ach"), ("sieben", "sib"),
   ("ig", "igs"), ("ert", "erts"), ("end", "ends"), ("ion", "ions"),
   ("nen", "ns"), ("rde", "rds"), ("rden", "rds"), ("zäh", "zähn"),
   ("ärd", "ärds"), ("rdä", "rdäs")]

/-- The `for key in self.ords: if outword.endswith(key): ...; break` scan
of `to_ordinal`: only the first matching ending is transformed. -/
def applyOrds : List (String × String) → String → String
  | [], w => w
  | (k, v) :: rest, w =>
    if w.endsWith k then w.dropRight k.length ++ v else applyOrds rest w

/-- Python lowercase-ASCII class `[a-z]` of the ordinal cleanup regexes. -/
def lowerAlpha (c : Char) : Bool := 'a' ≤ c && c ≤ 'z'

/-- Whether a suffix matches the group `[a-z]+(illion|illiard)sti` of the
cleanup regexes in `to_ordinal`: all-lowercase letters ending in
`illionsti`/`illiardsti` with at least one letter before the magnitude
stem. -/
def isIllionStiTail (l : List Char) : Bool :=
  l.all lowerAlpha &&
    ((String.mk l).endsWith "illionsti" && decide (10 ≤ l.length) ||
     (String.mk l).endsWith "illiardsti" && decide (11 ≤ l.length))

/-- Leftmost removal of the marker `pre` when it is followed by an
`...illion/illiard` ordinal tail that runs to the end of the string; models
`re.sub(r'<pre>([a-z]+(illion|illiard)sti)$', group1, res)`. -/
def subIllionAux (pre : List Char) : List Char → Option (List Char)
  | [] => none
  | c :: rest =>
    if pre.isPrefixOf (c :: rest) && isIllionStiTail ((c :: rest).drop pre.length) then
      some ((c :: rest).drop pre.length)
    else
      match subIllionAux pre rest with
      | some r => some (c :: r)
      | none => none

/-- `re.sub(r'ei ([a-z]+(illion|illiard)sti)$', ..., res)` of `to_ordinal`. -/
def subEiIllion (s : String) : String :=
  match subIllionAux "ei ".data s.data with
  | some r => String.mk r
  | none => s

/-- `re.sub(r' ([a-z]+(illion|illiard)sti)$', ..., res)` of `to_ordinal`. -/
def subSpaceIllion (s : String) : String :=
  match subIllionAux " ".data s.data with
  | some r => String.mk r
  | none => s

/-- Python `str.replace(old, "", 1)` for the single hard-coded
`res.replace("ei", "", 1)` exception in `to_ordinal`. -/
def removeFirstEi : List Char → List Char
  | 'e' :: 'i' :: r => r
  | c :: r => c :: removeFirstEi r
  | [] => []

/-- A row of the ordinal declension table loaded in
`Num2Word_CH_SG.setup` from `numbers_helper.xlsx` (an external data
source, §6 of the spec): the columns `Deklination`, `Genus`, `Kasus`
(lower-cased at load) and `St_Gallen_short`. -/
structure DeclRow where
  deklination : String
  genus : String
  kasus : String
  suffix : String
  deriving DecidableEq, Repr

/-- The row-selection mask of `Num2Word_CH_SG.to_ordinal` (line 168). -/
def declMask (d : Declension) (r : DeclRow) : Bool :=
  decide (r.deklination = d.declension ∧ r.genus = d.gender ∧ r.kasus = d.cas)

/-- `Num2Word_CH_SG.to_ordinal` (`lang_CH_SG.py`, lines 161-181) with the
externally-loaded declension table as a parameter. The masked selection's
`.values[0]` raises `IndexError` when no row matches, modelled as
`Except.error ()`; no replacement text is produced in that case. -/
def Num2Word_CH_SG.to_ordinal (table : List DeclRow) (value : Nat)
    (d : Declension) : Except Unit String :=
  let outword := applyOrds sgOrds (Num2Word_CH_SG.to_cardinal value).toLower
  match (table.filter (declMask d)).head? with
  | none => .error ()
  | some row =>
    let res := outword ++ "t" ++ row.suffix
    let res1 :=
      if res = "eitusigssti" ∨ res = "eihundärdsti" then
        String.mk (removeFirstEi res.data)
      else res
    .ok (subSpaceIllion (subEiIllion res1))

/-- Idiomatic minute table `self.minutes` of `Num2Word_CH_SG.setup`. -/
def sgMinutesTable (n : Nat) : Option String :=
  if n = 15 then some "viertlab"
  else if n = 25 then some "fünf vor halb"
  else if n = 30 then some "halbi"
  else if n = 35 then some "fünf ab halb"
  else if n = 45 then some "viertl vor"
  else none

/-- `Num2Word_CH_SG.to_minutes` (`lang_CH_SG.py`, lines 194-200); the
fall-through for values ≥ 60 returns Python `None`. -/
def Num2Word_CH_SG.to_minutes (n : Nat) : Option String :=
  match sgMinutesTable n with
  | some w => some w
  | none =>
    if n < 30 then some (Num2Word_CH_SG.to_cardinal n ++ "ab")
    else if 30 < n ∧ n < 60 then some (Num2Word_CH_SG.to_cardinal (60 - n) ++ "vor")
    else none

/-- `Num2Word_CH_SG.to_hours` (`lang_CH_SG.py`, lines 201-203): the
`self.hours` dict for 1-12, Python `None` otherwise. -/
def Num2Word_CH_SG.to_hours (n : Nat) : Option String :=
  if n = 1 then some "eis"
  else if n = 2 then some "zwei"
  else if n = 3 then some "drü"
  else if n = 4 then some "vieri"
  else if n = 5 then some "füfi"
  else if n = 6 then some "sechsi"
  else if n = 7 then some "sibni"
  else if n = 8 then some "achti"
  else if n = 9 then some "nüni"
  else if n = 10 then some "zäni"
  else if n = 11 then some "elfi"
  else if n = 12 then some "zwölfi"
  else none

/-- `Num2Word_CH_SG.to_month_dates` (`lang_CH_SG.py`, lines 204-206). -/
def Num2Word_CH_SG.to_month_dates (n : Nat) : Option String :=
  if n = 1 then some "Januar"
  else if n = 2 then some "Februar"
  else if n = 3 then some "März"
  else if n = 4 then some "April"
  else if n = 5 then some "Mai"
  else if n = 6 then some "Juni"
  else if n = 7 then some "Juli"
  else if n = 8 then some "August"
  else if n = 9 then some "Septämbor"
  else if n = 10 then some "Oktobor"
  else if n = 11 then some "Novämbor"
  else if n = 12 then some "Dezämbor"
  else none

/-- PHONE replacement of `convert_numbers`
(`detect_convert_ch_numbers.py`, lines 379-385): `replace(" ", "")` strips
spaces (and nothing else), a leading `+` becomes the literal word `plus`,
then every remaining character is rendered with a space prepended. The
per-character `num2words(digit, ...)` dispatch is modelled from the spec
(the dispatch module is not in the source tree): a digit renders as its
cardinal word, a non-digit character is a conversion failure. -/
def phoneStep (acc : String) (c : Char) : Except Unit String :=
  if c.isDigit then Except.ok (acc ++ " " ++ num2wordsStr (String.singleton c))
  else Except.error ()

/-- The PHONE loop of `convert_numbers`: `replace(" ", "")` is character
filtering, `startswith("+")` is a head check, `lstrip("+")` drops leading
plus signs, then each remaining character is appended via `phoneStep`. -/
def convertPhone (s : String) : Except Unit String :=
  let cleaned := s.data.filter (fun c => c ≠ ' ')
  let init := if cleaned.head? = some '+' then "plus" else ""
  (cleaned.dropWhile (fun c => c = '+')).foldlM phoneStep init

/-- Python single-character index `s[i]` as a 1-character string. -/
def pyCharAt (s : String) (i : Nat) : String := (s.drop i).take 1

/-- Replacement text generated by `convert_numbers`
(`detect_convert_ch_numbers.py`, lines 355-427) for a single resolved span,
with the St. Gallen tables and the externally-loaded declension table as a
parameter. `Except.error ()` models an exception escaping the (uncaught)
span-processing body: declension lookup misses, `None` arithmetic on
missing TIME fields, lookup misses in the hour/minute/month tables, and
value payloads whose shape does not match the kind. A kind with no
matching branch leaves `number = span.text` unchanged. -/
def spanReplacement (table : List DeclRow) (sp : NumberSpan) :
    Except Unit String :=
  if sp.kind = "NUMBER" then
    let lz := (sp.text.data.takeWhile (fun c => c = '0')).length
    if 0 < lz then
      let zeroPart := String.intercalate " "
        (List.replicate lz (num2wordsStr "0"))
      if lz = sp.text.length then .ok zeroPart
      else .ok (zeroPart ++ " " ++ num2wordsStr (sp.text.drop lz))
    else .ok (num2wordsStr sp.text)
  else if sp.kind = "ZIP" then
    if sp.text.length = 4 then
      if pyCharAt sp.text 1 = "000" then .ok (num2wordsStr sp.text)
      else if pyCharAt sp.text 2 = "0" then
        .ok (num2wordsStr (sp.text.take 2) ++ " " ++
          Num2Word_CH_SG.to_cardinal 0 ++ " " ++ num2wordsStr (pyCharAt sp.text 3))
      else
        .ok (num2wordsStr (sp.text.take 2) ++ " " ++ num2wordsStr (sp.text.drop 2))
    else .ok sp.text
  else if sp.kind = "PHONE" then
    convertPhone sp.text
  else if sp.kind = "ORDINAL" then
    match sp.value with
    | some (.ordV d) =>
      Num2Word_CH_SG.to_ordinal table (natFromDigitsL (sp.text.dropRight 1).data) d
    | _ => .error ()
  else if sp.kind = "TIME" then
    match sp.value with
    | some (.timeV (some h) (some m)) =>
      let h1 := if m = 25 ∨ 30 ≤ m then h + 1 else h
      let h2 := if 12 < h1 then h1 - 12 else h1
      match Num2Word_CH_SG.to_hours h2 with
      | none => .error ()
      | some hw =>
        if 0 < m then
          match Num2Word_CH_SG.to_minutes m with
          | none => .error ()
          | some mw => .ok (mw ++ " " ++ hw)
        else .ok hw
    | _ => .error ()
  else if sp.kind = "DATE" then
    match sp.value with
    | some (.dateV y? m? d?) =>
      let dayParts : Except Unit (List String) :=
        match d? with
        | none => .ok []
        | some d =>
          match Num2Word_CH_SG.to_ordinal table d
              { declension := "gemischt", gender := "masc", cas := "nom" } with
          | .error e => .error e
          | .ok w => .ok [w]
      match dayParts with
      | .error e => .error e
      | .ok parts0 =>
        let monthParts : Except Unit (List String) :=
          match m? with
          | none => .ok parts0
          | some m =>
            match Num2Word_CH_SG.to_month_dates m with
            | none => .error ()
            | some w => .ok (parts0 ++ [w])
        match monthParts with
        | .error e => .error e
        | .ok parts1 =>
          let parts2 :=
            match y? with
            | none => parts1
            | some y =>
              let ys := toString y
              if ys.length = 4 ∧ y ≤ 1999 then
                parts1 ++ [num2wordsStr (ys.take 2) ++ " " ++ num2wordsStr (ys.drop 2)]
              else parts1 ++ [num2wordsStr ys]
          .ok (String.intercalate " " parts2)
    | _ => .error ()
  else .ok sp.text

/-- Stable descending insertion by `start`, modelling
`spans.sort(key=lambda s: s.start, reverse=True)` at line 352 (Python's
sort is stable, so equal keys keep their original order). -/
def insertDesc (x : NumberSpan) : List NumberSpan → List NumberSpan
  | [] => [x]
  | y :: ys => if y.start ≤ x.start then x :: y :: ys else y :: insertDesc x ys

/-- Sort by descending `start`. -/
def sortDescStart (l : List NumberSpan) : List NumberSpan :=
  l.foldr insertDesc []

/-- The rewriting fold of `convert_numbers`: walk the resolved spans from
the highest `start` down and splice each replacement into the working text
(`out = out[:span.start] + number + out[span.end:]`). An exception in any
span's replacement propagates — nothing catches it. -/
def spliceStep (table : List DeclRow) (out : String) (sp : NumberSpan) :
    Except Unit String :=
  match spanReplacement table sp with
  | .error e => .error e
  | .ok repl => .ok (out.take sp.start ++ repl ++ out.drop sp.stop)

/-- The rewriting fold itself, over the descending-sorted span list. -/
def convertSpans (table : List DeclRow) (spans : List NumberSpan)
    (text : String) : Except Unit String :=
  (sortDescStart spans).foldlM (spliceStep table) text

/-- `convert_numbers` (`detect_convert_ch_numbers.py`, lines 348-431) for
the St. Gallen dialect: detect spans (collaborator outputs as inputs, as
in `detect_number_spans` above), then rewrite the text from the end. -/
def convert_numbers (table : List DeclRow) (text : String)
    (hres : Except Unit (List Timex))
    (phoneC ordC zipC numC : List NumberSpan) : Except Unit String :=
  convertSpans table
    (detect_number_spans text.length hres phoneC ordC zipC numC) text

/-- Names bound at module level in `lang_CH_SG.py`: the two `__future__`
imports, `pd`, `re`, `Num2Word_EU` and the class itself. `Num2Word_CH_BS`
is not among them. -/
def langCHSGModuleNames : List String :=
  ["print_function", "unicode_literals", "pd", "re", "Num2Word_EU",
   "Num2Word_CH_SG"]

/-- Python name resolution at call time: a name not bound in the module
(or builtins) raises `NameError`. -/
def lookupName (env : List String) (n : String) : Except String String :=
  if env.contains n then .ok n
  else .error ("NameError: name " ++ n ++ " is not defined")

/-- `Num2Word_CH_SG.to_currency` (`lang_CH_SG.py`, lines 187-193): the body
evaluates `super(Num2Word_CH_BS, self)`, whose first argument is the name
`Num2Word_CH_BS`, resolved against the module namespace before anything
else runs. The continuation after a successful lookup is never reached
(the name is unbound), so the model stops at the name resolution. -/
def Num2Word_CH_SG.to_currency (val : Int) (currency : String) :
    Except String String :=
  match lookupName langCHSGModuleNames "Num2Word_CH_BS" with
  | .error e => .error e
  | .ok _ => .ok (toString val ++ " " ++ currency)

/-- Neither span is contained in the other (the nesting relation is the
containment test of the resolver, with non-strict bounds). -/
def spanNoNest (a b : NumberSpan) : Prop :=
  ¬(b.start ≤ a.start ∧ a.stop ≤ b.stop) ∧
  ¬(a.start ≤ b.start ∧ b.stop ≤ a.stop)

instance (a b : NumberSpan) : Decidable (spanNoNest a b) := by
  unfold spanNoNest; infer_instance

/-- Rendering described by the specification for the digits of a phone
number: every digit spelled individually in original order, each preceded
by a single separating space. -/
def spacedDigitWords : List Char → String
  | [] => ""
  | c :: cs => " " ++ num2wordsStr (String.singleton c) ++ spacedDigitWords cs

/-- Membership in an insertion is membership in the inserted element or the
original list. -/
theorem mem_insertLE {x y : NumberSpan} {l : List NumberSpan} :
    y ∈ insertLE x l ↔ y = x ∨ y ∈ l := by
  induction l with
  | nil => simp [insertLE]
  | cons a t ih =>
    simp only [insertLE]
    split
    · simp [List.mem_cons]
    · simp only [List.mem_cons, ih]
      tauto

/-- The stable sort permutes membership. -/
theorem mem_sortSpans {y : NumberSpan} {l : List NumberSpan} :
    y ∈ sortSpans l ↔ y ∈ l := by
  induction l with
  | nil => simp [sortSpans]
  | cons a t ih =>
    show y ∈ insertLE a (sortSpans t) ↔ _
    rw [mem_insertLE]
    simp [ih, List.mem_cons]

/-- Every span in the output of the filtering walk comes from the
accumulator or the input. -/
theorem mem_resolveLoop {x : NumberSpan} :
    ∀ {l acc : List NumberSpan}, x ∈ resolveLoop l acc → x ∈ acc ∨ x ∈ l := by
  intro l
  induction l with
  | nil => intro acc h; exact Or.inl h
  | cons s rest ih =>
    intro acc h
    rw [resolveLoop] at h
    split at h
    · rcases ih h with h1 | h1
      · exact Or.inl h1
      · exact Or.inr (List.mem_cons_of_mem _ h1)
    · split at h
      · rcases ih h with h1 | h1
        · exact Or.inl h1
        · exact Or.inr (List.mem_cons_of_mem _ h1)
      · rcases ih h with h1 | h1
        · rcases List.mem_append.1 h1 with h2 | h2
          · exact Or.inl h2
          · exact Or.inr (by simp at h2; simp [h2])
        · exact Or.inr (List.mem_cons_of_mem _ h1)

/-- The filtering walk preserves pairwise disjointness of the accumulator:
a span is only appended when it overlaps none of the spans already kept. -/
theorem resolveLoop_pairwise :
    ∀ (l acc : List NumberSpan), acc.Pairwise SpanDisjoint →
      (resolveLoop l acc).Pairwise SpanDisjoint := by
  intro l
  induction l with
  | nil => intro acc h; exact h
  | cons s rest ih =>
    intro acc h
    rw [resolveLoop]
    split
    · exact ih acc h
    · split
      · exact ih acc h
      · rename_i h1 h2
        refine ih (acc ++ [s]) ?_
        rw [List.pairwise_append]
        refine ⟨h, by simp, ?_⟩
        intro a ha b hb
        simp only [List.mem_singleton] at hb
        subst hb
        have h3 : overlapB b a = false := by
          by_contra hc
          exact h2 (List.any_eq_true.2 ⟨a, ha, by simpa using hc⟩)
        have h4 : b.stop ≤ a.start ∨ a.stop ≤ b.start := by
          unfold overlapB at h3
          rw [Bool.not_eq_false'] at h3
          exact of_decide_eq_true h3
        exact or_comm.mp h4

/-- Membership in a descending insertion. -/
theorem mem_insertDesc {x y : NumberSpan} {l : List NumberSpan} :
    y ∈ insertDesc x l ↔ y = x ∨ y ∈ l := by
  induction l with
  | nil => simp [insertDesc]
  | cons a t ih =>
    simp only [insertDesc]
    split
    · simp [List.mem_cons]
    · simp only [List.mem_cons, ih]
      tauto

/-- The descending sort of the rewriting phase permutes membership. -/
theorem mem_sortDescStart {y : NumberSpan} {l : List NumberSpan} :
    y ∈ sortDescStart l ↔ y ∈ l := by
  induction l with
  | nil => simp [sortDescStart]
  | cons a t ih =>
    show y ∈ insertDesc a (sortDescStart t) ↔ _
    rw [mem_insertDesc]
    simp [ih, List.mem_cons]

/-- If any span of the list fails to produce a replacement, the whole
rewriting fold fails (nothing catches the exception). -/
theorem foldSpliceError (table : List DeclRow) (sp : NumberSpan) :
    ∀ (l : List NumberSpan) (out : String), sp ∈ l →
      spanReplacement table sp = .error () →
      l.foldlM (spliceStep table) out = .error () := by
  intro l
  induction l with
  | nil => intro out h; simp at h
  | cons c t ih =>
    intro out hmem hrep
    rcases List.mem_cons.1 hmem with h | h
    · subst h
      simp [List.foldlM_cons, spliceStep, hrep, Bind.bind, Except.bind]
    · cases hc : spliceStep table out c with
      | error e =>
        simp [List.foldlM_cons, hc, Bind.bind, Except.bind]
      | ok o =>
        simp only [List.foldlM_cons, hc, Bind.bind, Except.bind]
        exact ih o h hrep

/-- The phone digit fold on an all-digit character list succeeds and
produces exactly the space-prefixed digit words after the accumulator. -/
theorem phoneFold (l : List Char) (hl : ∀ c ∈ l, c.isDigit = true) :
    ∀ acc : String, l.foldlM phoneStep acc = .ok (acc ++ spacedDigitWords l) := by
  induction l with
  | nil =>
    intro acc
    simp [spacedDigitWords, String.append_empty, List.foldlM_nil, pure, Except.pure]
  | cons c t ih =>
    intro acc
    have hc : c.isDigit = true := hl c (List.mem_cons_self c t)
    rw [List.foldlM_cons]
    simp only [phoneStep, hc, if_pos, Bind.bind, Except.bind]
    rw [ih (fun d hd => hl d (List.mem_cons_of_mem c hd))]
    simp [spacedDigitWords, String.append_assoc]

/-- Dropping leading plus signs from a list without plus signs is the
identity. -/
theorem dropWhilePlus (l : List Char) (hl : ∀ c ∈ l, c ≠ '+') :
    l.dropWhile (fun c => c = '+') = l := by
  cases l with
  | nil => rfl
  | cons c t =>
    have hc : (decide (c = '+')) = false :=
      decide_eq_false (hl c (List.mem_cons_self c t))
    simp [List.dropWhile_cons, hc]

/-- C1: for every input (any temporal-tagger outcome and any candidate
spans produced by the matchers, all with nonempty ranges as regex matches
and guarded tagger spans are), the span list returned by
`detect_number_spans` is pairwise disjoint: no two returned spans overlap
and no returned span is contained in another. -/
theorem detect_number_spans_disjoint (textLen : Nat)
    (hres : Except Unit (List Timex)) (phoneC ordC zipC numC : List NumberSpan)
    (hne : ∀ sp ∈ heidelSpans textLen hres ++ phoneC ++ ordC ++ zipC ++ numC,
      sp.start < sp.stop) :
    (detect_number_spans textLen hres phoneC ordC zipC numC).Pairwise
      (fun a b => SpanDisjoint a b ∧ spanNoNest a b) := by
  unfold detect_number_spans resolveSpans
  have hpw :=
    resolveLoop_pairwise
      (sortSpans (heidelSpans textLen hres ++ phoneC ++ ordC ++ zipC ++ numC))
      [] List.Pairwise.nil
  refine hpw.imp_of_mem ?_
  intro a b ha hb hd
  have ha2 : a.start < a.stop := by
    rcases mem_resolveLoop ha with h | h
    · simp at h
    · exact hne a (mem_sortSpans.1 h)
  have hb2 : b.start < b.stop := by
    rcases mem_resolveLoop hb with h | h
    · simp at h
    · exact hne b (mem_sortSpans.1 h)
  refine ⟨hd, ?_, ?_⟩ <;> rintro ⟨h1, h2⟩ <;> rcases hd with h | h <;> omega

/-- Witness for C1 at a concrete input: one PHONE candidate, successful
empty temporal call. -/
theorem detect_number_spans_disjoint_witness :
    (∀ sp ∈ heidelSpans 5 (Except.ok []) ++
        [({ kind := "PHONE", text := "12345", start := 0, stop := 5 } : NumberSpan)] ++
        [] ++ [] ++ [],
      sp.start < sp.stop) ∧
    (detect_number_spans 5 (Except.ok [])
        [{ kind := "PHONE", text := "12345", start := 0, stop := 5 }] [] [] []).Pairwise
      (fun a b => SpanDisjoint a b ∧ spanNoNest a b) :=
  ⟨by decide, detect_number_spans_disjoint 5 (Except.ok [])
    [{ kind := "PHONE", text := "12345", start := 0, stop := 5 }] [] [] []
    (by decide)⟩

/-- C5 counterexample: in both dialects, merging a leading count of one
into a magnitude of 10^6 produces the prefix stem `ei` with a space and
the magnitude word, not the bare magnitude word the claim describes. -/
theorem merge_million_cex :
    Num2Word_CH_BS.merge ("eis", 1) ("Million", 1000000)
      = ("ei Million", 1000000) ∧
    Num2Word_CH_SG.merge ("eis", 1) ("Million", 1000000)
      = ("ei Million", 1000000) ∧
    ("ei Million" : String) ≠ "Million" :=
  ⟨rfl, rfl, by decide⟩

/-- C5 amended: in both dialects a leading count of one fuses into
`ei` + magnitude word for 100 and 1000, and before any magnitude of 10^6
or greater it is rendered as the prefix stem `ei` followed by a space and
the magnitude word (the count is absorbed into the value, but the
magnitude word is not used bare). -/
theorem merge_leading_one_amended (ct nt : String) (m : Nat)
    (hm : 10 ^ 6 ≤ m) :
    Num2Word_CH_BS.merge (ct, 1) (nt, 100) = ("ei" ++ nt, 100) ∧
    Num2Word_CH_BS.merge (ct, 1) (nt, 1000) = ("ei" ++ nt, 1000) ∧
    Num2Word_CH_BS.merge (ct, 1) (nt, m) = ("ei " ++ nt, m) ∧
    Num2Word_CH_SG.merge (ct, 1) (nt, 100) = ("ei" ++ nt, 100) ∧
    Num2Word_CH_SG.merge (ct, 1) (nt, 1000) = ("ei" ++ nt, 1000) ∧
    Num2Word_CH_SG.merge (ct, 1) (nt, m) = ("ei " ++ nt, m) := by
  have h1 : ¬(1 = 1 ∧ (m = 100 ∨ m = 1000)) := by omega
  have h2 : ¬(1 = 1 ∧ m < 10 ^ 6) := by omega
  have h3 : (1 : Nat) < m := by omega
  have h4 : ¬(10 ^ 6 ≤ m ∧ 1 < 1 ∧ nt.endsWith "e" = true) := by
    rintro ⟨-, h, -⟩; omega
  refine ⟨by simp [Num2Word_CH_BS.merge], by simp [Num2Word_CH_BS.merge], ?_,
    by simp [Num2Word_CH_SG.merge], by simp [Num2Word_CH_SG.merge], ?_⟩ <;>
    · simp only [Num2Word_CH_BS.merge, Num2Word_CH_SG.merge,
        if_neg h1, if_neg h2, if_pos h3, if_neg h4, if_pos hm, if_pos rfl,
        one_mul]
      rw [if_neg (show ¬(True ∧ (m = 100 ∨ m = 1000)) by
        simp only [true_and]; omega)]
      rw [if_neg (show ¬(True ∧ m < 10 ^ 6) by
        simp only [true_and]; omega)]
      rw [if_pos trivial]
      exact congrArg (fun s => (s ++ nt, m)) (show ("ei" ++ " " : String) = "ei " from rfl)

/-- Witness for C5's amended theorem at the magnitude 10^6. -/
theorem merge_leading_one_amended_witness :
    10 ^ 6 ≤ 1000000 ∧
    (Num2Word_CH_BS.merge ("eis", 1) ("Million", 100) = ("ei" ++ "Million", 100) ∧
     Num2Word_CH_BS.merge ("eis", 1) ("Million", 1000) = ("ei" ++ "Million", 1000) ∧
     Num2Word_CH_BS.merge ("eis", 1) ("Million", 1000000) = ("ei " ++ "Million", 1000000) ∧
     Num2Word_CH_SG.merge ("eis", 1) ("Million", 100) = ("ei" ++ "Million", 100) ∧
     Num2Word_CH_SG.merge ("eis", 1) ("Million", 1000) = ("ei" ++ "Million", 1000) ∧
     Num2Word_CH_SG.merge ("eis", 1) ("Million", 1000000) = ("ei " ++ "Million", 1000000)) :=
  ⟨by norm_num, merge_leading_one_amended "eis" "Million" 1000000 (by norm_num)⟩

/-- C10: `Num2Word_CH_SG.to_currency` always fails with a `NameError`
because the name `Num2Word_CH_BS` is not bound in the `lang_CH_SG` module;
the St. Gallen currency path can never return a result. -/
theorem to_currency_name_error (val : Int) (currency : String) :
    Num2Word_CH_SG.to_currency val currency
      = .error "NameError: name Num2Word_CH_BS is not defined" := rfl

/-- C2 counterexample: a ZIP and a NUMBER candidate overlap and ZIP has
the lower priority value, yet the resolver of `detect_number_spans` drops
the ZIP (it partially overlaps an accepted PHONE) and retains the NUMBER —
pairwise priority dominance fails in a chain of overlaps. -/
theorem priority_dominance_cex :
    ¬ SpanDisjoint { kind := "ZIP", text := "z", start := 8, stop := 12 }
        { kind := "NUMBER", text := "n", start := 11, stop := 20 } ∧
    kindPriority "ZIP" < kindPriority "NUMBER" ∧
    ({ kind := "ZIP", text := "z", start := 8, stop := 12 } : NumberSpan) ∉
      detect_number_spans 20 (Except.ok [])
        [{ kind := "PHONE", text := "p", start := 0, stop := 10 }] []
        [{ kind := "ZIP", text := "z", start := 8, stop := 12 }]
        [{ kind := "NUMBER", text := "n", start := 11, stop := 20 }] ∧
    ({ kind := "NUMBER", text := "n", start := 11, stop := 20 } : NumberSpan) ∈
      detect_number_spans 20 (Except.ok [])
        [{ kind := "PHONE", text := "p", start := 0, stop := 10 }] []
        [{ kind := "ZIP", text := "z", start := 8, stop := 12 }]
        [{ kind := "NUMBER", text := "n", start := 11, stop := 20 }] := by
  decide

/-- C2 amended: when exactly two candidates compete (no third accepted
span interferes), the resolver retains the candidate with the numerically
lower priority value and drops the other, regardless of their relative
length, start position or input order. -/
theorem priority_dominance_amended (a b : NumberSpan)
    (hpri : kindPriority a.kind < kindPriority b.kind)
    (hov : ¬ SpanDisjoint a b) :
    resolveSpans [a, b] = [a] ∧ resolveSpans [b, a] = [a] := by
  have hle : keyLE a b = true := by
    unfold keyLE
    exact decide_eq_true (Or.inl hpri)
  have hnle : keyLE b a = false := by
    unfold keyLE
    apply decide_eq_false
    rintro (h | ⟨h, -⟩) <;> omega
  have hov2 : overlapB b a = true := by
    unfold overlapB
    rw [Bool.not_eq_true']
    exact decide_eq_false (fun hc => hov (or_comm.mp hc))
  have hsort1 : sortSpans [a, b] = [a, b] := by
    show insertLE a (insertLE b []) = [a, b]
    simp [insertLE, hle]
  have hsort2 : sortSpans [b, a] = [a, b] := by
    show insertLE b (insertLE a []) = [a, b]
    simp [insertLE, hnle]
  have hloop : resolveLoop [a, b] [] = [a] := by
    rw [resolveLoop]
    simp only [List.any_nil, Bool.false_eq_true, if_false, List.nil_append]
    rw [resolveLoop]
    by_cases hc : containedB b a = true
    · simp [hc, resolveLoop]
    · simp [hc, hov2, resolveLoop]
  refine ⟨?_, ?_⟩
  · unfold resolveSpans
    rw [hsort1, hloop]
  · unfold resolveSpans
    rw [hsort2, hloop]

/-- Witness for C2's amended theorem: an overlapping PHONE/NUMBER pair. -/
theorem priority_dominance_amended_witness :
    kindPriority "PHONE" < kindPriority "NUMBER" ∧
    ¬ SpanDisjoint { kind := "PHONE", text := "p", start := 0, stop := 5 }
        { kind := "NUMBER", text := "n", start := 3, stop := 8 } ∧
    (resolveSpans
        [{ kind := "PHONE", text := "p", start := 0, stop := 5 },
         { kind := "NUMBER", text := "n", start := 3, stop := 8 }]
      = [{ kind := "PHONE", text := "p", start := 0, stop := 5 }] ∧
     resolveSpans
        [{ kind := "NUMBER", text := "n", start := 3, stop := 8 },
         { kind := "PHONE", text := "p", start := 0, stop := 5 }]
      = [{ kind := "PHONE", text := "p", start := 0, stop := 5 }]) :=
  ⟨by decide, by decide,
    priority_dominance_amended
      { kind := "PHONE", text := "p", start := 0, stop := 5 }
      { kind := "NUMBER", text := "n", start := 3, stop := 8 }
      (by decide) (by decide)⟩

/-- C4: evaluating `convert_numbers` at the accepted ZIP span `"4000"`
(whose `d2 d3 d4` is `"000"`): the dead comparison `number[1] == "000"`
(a single character against a three-character string) makes the
whole-cardinal branch unreachable, so the code renders
`"vierzg null null"` instead of the single cardinal `"viotuusig"` that the
claim (and the spec) requires. -/
theorem zip_d000_bug :
    convert_numbers [] "4000" (Except.ok []) [] []
        [{ kind := "ZIP", text := "4000", start := 0, stop := 4 }] []
      = .ok "vierzg null null" ∧
    num2wordsStr "4000" = "viotuusig" ∧
    pyCharAt "4000" 1 = "0" ∧
    ("vierzg null null" : String) ≠ "viotuusig" :=
  ⟨rfl, rfl, rfl, by decide⟩

/-- C6 counterexample: for an accepted national PHONE span (no leading
`+`), the replacement `convert_numbers` produces begins with an extra
space — the digit loop prepends a space to every word including the first,
and only the `+` branch seeds a word before it. The rewritten text contains
a double space after `"Tel:"`. -/
theorem phone_leading_space_cex :
    convert_numbers [] "Tel: 0791234567" (Except.ok [])
        [{ kind := "PHONE", text := "0791234567", start := 5, stop := 15 }] [] []
        [{ kind := "NUMBER", text := "0791234567", start := 5, stop := 15 }]
      = .ok "Tel:  null siebe nün eis zwei drü vio füf sechs siebe" ∧
    convertPhone "0791234567"
      = .ok " null siebe nün eis zwei drü vio füf sechs siebe" ∧
    (" null siebe nün eis zwei drü vio füf sechs siebe" : String)
      ≠ "null siebe nün eis zwei drü vio füf sechs siebe" :=
  ⟨rfl, rfl, by decide⟩

/-- C6 amended: on a phone text of digits and spaces (the only separator
the code strips), the PHONE conversion removes the spaces, emits the word
`plus` first exactly when the text starts with `+`, and then appends, for
each digit in original order, a single space followed by the digit's word —
so the replacement always begins with a space unless the text starts with
`+` (other separator characters are not stripped but passed to the digit
renderer). -/
theorem phone_replacement_amended (ds : List Char)
    (h : ∀ c ∈ ds, c.isDigit = true ∨ c = ' ') :
    convertPhone (String.mk ds)
      = .ok (spacedDigitWords (ds.filter (fun c => c ≠ ' '))) ∧
    convertPhone (String.mk ('+' :: ds))
      = .ok ("plus" ++ spacedDigitWords (ds.filter (fun c => c ≠ ' '))) := by
  have hdig : ∀ c ∈ ds.filter (fun c => c ≠ ' '), c.isDigit = true := by
    intro c hc
    rcases List.mem_filter.1 hc with ⟨hmem, hne⟩
    rcases h c hmem with hd | hsp
    · exact hd
    · exact absurd (by simpa using hsp) (by simpa using hne)
  have hnoplus : ∀ c ∈ ds.filter (fun c => c ≠ ' '), c ≠ '+' := by
    intro c hc hplus
    have := hdig c hc
    subst hplus
    simp at this
  have hdw : (ds.filter (fun c => c ≠ ' ')).dropWhile (fun c => c = '+')
      = ds.filter (fun c => c ≠ ' ') := dropWhilePlus _ hnoplus
  have hhead : ((ds.filter (fun c => c ≠ ' ')).head? = some '+') = False := by
    simp only [eq_iff_iff, iff_false]
    intro hh
    have hmem : '+' ∈ ds.filter (fun c => c ≠ ' ') := by
      cases hl : ds.filter (fun c => c ≠ ' ') with
      | nil => rw [hl] at hh; simp at hh
      | cons a t =>
        rw [hl] at hh
        simp only [List.head?_cons, Option.some.injEq] at hh
        subst hh
        exact List.mem_cons_self _ _
    exact hnoplus '+' hmem rfl
  constructor
  · show (let cleaned := ds.filter (fun c => c ≠ ' ');
      let init := if cleaned.head? = some '+' then "plus" else "";
      (cleaned.dropWhile (fun c => c = '+')).foldlM phoneStep init) = _
    simp only [hhead, if_false, hdw]
    rw [phoneFold _ hdig ""]
    rw [String.empty_append]
  · show (let cleaned := ('+' :: ds).filter (fun c => c ≠ ' ');
      let init := if cleaned.head? = some '+' then "plus" else "";
      (cleaned.dropWhile (fun c => c = '+')).foldlM phoneStep init) = _
    have hfil : ('+' :: ds).filter (fun c => c ≠ ' ')
        = '+' :: ds.filter (fun c => c ≠ ' ') := by
      simp [List.filter_cons]
    simp only [hfil, List.head?_cons, List.dropWhile_cons, decide_True,
      if_true, hdw]
    rw [phoneFold _ hdig "plus"]

/-- Witness for C6's amended theorem on the digit-and-space text
`"079 123"`, with and without a leading plus. -/
theorem phone_replacement_amended_witness :
    (∀ c ∈ ['0', '7', '9', ' ', '1', '2', '3'], c.isDigit = true ∨ c = ' ') ∧
    (convertPhone (String.mk ['0', '7', '9', ' ', '1', '2', '3'])
        = .ok (spacedDigitWords
            (['0', '7', '9', ' ', '1', '2', '3'].filter (fun c => c ≠ ' '))) ∧
     convertPhone (String.mk ('+' :: ['0', '7', '9', ' ', '1', '2', '3']))
        = .ok ("plus" ++ spacedDigitWords
            (['0', '7', '9', ' ', '1', '2', '3'].filter (fun c => c ≠ ' ')))) :=
  ⟨by decide, phone_replacement_amended ['0', '7', '9', ' ', '1', '2', '3'] (by decide)⟩

/-- C7 counterexample: when the temporal tagger's output list holds a
well-formed TIME entry followed by an unparseable one (no `value`), the
exception aborts the loop but the span already appended survives — the
DATE/TIME candidate set for that call is not empty, contrary to the claim. -/
theorem temporal_partial_cex :
    detect_number_spans 10
        (Except.ok
          [{ type? := some "TIME", text := "t", span := some (1, 6),
             value := some "2020-01-01T12:30" },
           { type? := some "TIME", text := "u", span := some (1, 6),
             value := none }]) [] [] [] []
      = [{ kind := "TIME", text := "t", start := 0, stop := 5,
           value := some (.timeV (some 12) (some 30)) }] ∧
    processTimex 10
        { type? := some "TIME", text := "u", span := some (1, 6), value := none }
      = .error () ∧
    ([({ kind := "TIME", text := "t", start := 0, stop := 5,
         value := some (.timeV (some 12) (some 30)) } : NumberSpan)] : List NumberSpan)
      ≠ [] :=
  ⟨by decide, rfl, by decide⟩

/-- C7 amended: a failing temporal-tagger call contributes no DATE/TIME
candidates and behaves exactly like a successful call with no temporal
expressions; the error does not propagate, and all other detectors'
candidates are still resolved and contribute; when the tagger output is
unparseable from its first entry on, the temporal candidate set is empty
(candidates parsed before the first unparseable entry would be kept). -/
theorem temporal_failure_amended (textLen : Nat) (u : Unit) (t : Timex)
    (ts : List Timex) (p o z n : List NumberSpan)
    (ht : processTimex textLen t = .error ()) :
    detect_number_spans textLen (Except.error u) p o z n
      = detect_number_spans textLen (Except.ok []) p o z n ∧
    detect_number_spans textLen (Except.error u) p o z n
      = resolveSpans (p ++ o ++ z ++ n) ∧
    detect_number_spans textLen (Except.ok (t :: ts)) p o z n
      = resolveSpans (p ++ o ++ z ++ n) := by
  refine ⟨rfl, rfl, ?_⟩
  unfold detect_number_spans heidelSpans
  simp only [temporalLoop]
  rw [ht]
  rfl

/-- Witness for C7's amended theorem: a TIME entry without a `value` key
fails to process, and detection falls back to the other detectors'
candidates. -/
theorem temporal_failure_amended_witness :
    processTimex 10
        { type? := some "TIME", text := "u", span := some (1, 6), value := none }
      = .error () ∧
    (detect_number_spans 10 (Except.error ()) [] []
        [{ kind := "ZIP", text := "4410", start := 0, stop := 4 }] []
      = detect_number_spans 10 (Except.ok []) [] []
        [{ kind := "ZIP", text := "4410", start := 0, stop := 4 }] [] ∧
     detect_number_spans 10 (Except.error ()) [] []
        [{ kind := "ZIP", text := "4410", start := 0, stop := 4 }] []
      = resolveSpans ([] ++ [] ++
          [{ kind := "ZIP", text := "4410", start := 0, stop := 4 }] ++ []) ∧
     detect_number_spans 10
        (Except.ok
          [{ type? := some "TIME", text := "u", span := some (1, 6),
             value := none }]) [] []
        [{ kind := "ZIP", text := "4410", start := 0, stop := 4 }] []
      = resolveSpans ([] ++ [] ++
          [{ kind := "ZIP", text := "4410", start := 0, stop := 4 }] ++ [])) :=
  ⟨rfl, temporal_failure_amended 10 ()
    { type? := some "TIME", text := "u", span := some (1, 6), value := none }
    [] [] []
    [{ kind := "ZIP", text := "4410", start := 0, stop := 4 }] [] rfl⟩

/-- C8 counterexample: with a declension table holding no row for the
accepted ORDINAL span's `(schwach, masc, nom)`, `convert_numbers` on
`"Am 3. Tag 5"` returns no result at all — the lookup failure aborts the
whole conversion, so the disjoint NUMBER span `"5"` elsewhere in the text
is not normalized either, contrary to the claim's isolation requirement. -/
theorem declension_miss_cex :
    convert_numbers [] "Am 3. Tag 5" (Except.ok []) []
        [{ kind := "ORDINAL", text := "3.", start := 3, stop := 5,
           value := some (.ordV { declension := "schwach", gender := "masc", cas := "nom" }) }]
        [] [{ kind := "NUMBER", text := "5", start := 10, stop := 11 }]
      = .error () ∧
    (List.filter
        (declMask { declension := "schwach", gender := "masc", cas := "nom" })
        ([] : List DeclRow)).head? = none ∧
    (∀ s : String,
      convert_numbers [] "Am 3. Tag 5" (Except.ok []) []
        [{ kind := "ORDINAL", text := "3.", start := 3, stop := 5,
           value := some (.ordV { declension := "schwach", gender := "masc", cas := "nom" }) }]
        [] [{ kind := "NUMBER", text := "5", start := 10, stop := 11 }]
      ≠ .ok s) := by
  refine ⟨rfl, rfl, ?_⟩
  intro s h
  rw [show convert_numbers [] "Am 3. Tag 5" (Except.ok []) []
        [{ kind := "ORDINAL", text := "3.", start := 3, stop := 5,
           value := some (.ordV { declension := "schwach", gender := "masc", cas := "nom" }) }]
        [] [{ kind := "NUMBER", text := "5", start := 10, stop := 11 }]
      = .error () from rfl] at h
  exact Except.noConfusion h

/-- C8 amended: a declension-table lookup miss for an accepted
ORDINAL/DATE span makes `to_ordinal` signal an error without emitting any
substituted text, and that error propagates out of the rewriting fold of
`convert_numbers`, aborting the conversion of the entire text (no partial
output is produced for the other spans). -/
theorem declension_miss_amended (table : List DeclRow) (v : Nat)
    (d : Declension) (spans : List NumberSpan) (text : String)
    (sp : NumberSpan)
    (ht : (table.filter (declMask d)).head? = none)
    (hsp : sp ∈ spans)
    (hrep : spanReplacement table sp = .error ()) :
    Num2Word_CH_SG.to_ordinal table v d = .error () ∧
    convertSpans table spans text = .error () := by
  constructor
  · unfold Num2Word_CH_SG.to_ordinal
    rw [ht]
  · unfold convertSpans
    exact foldSpliceError table sp (sortDescStart spans) text
      (mem_sortDescStart.2 hsp) hrep

/-- Witness for C8's amended theorem: an empty declension table and an
ORDINAL span whose replacement fails. -/
theorem declension_miss_amended_witness :
    (List.filter
        (declMask { declension := "schwach", gender := "masc", cas := "nom" })
        ([] : List DeclRow)).head? = none ∧
    ({ kind := "ORDINAL", text := "3.", start := 3, stop := 5,
       value := some (.ordV { declension := "schwach", gender := "masc", cas := "nom" }) } : NumberSpan) ∈
      [({ kind := "ORDINAL", text := "3.", start := 3, stop := 5,
          value := some (.ordV { declension := "schwach", gender := "masc", cas := "nom" }) } : NumberSpan)] ∧
    spanReplacement []
        { kind := "ORDINAL", text := "3.", start := 3, stop := 5,
          value := some (.ordV { declension := "schwach", gender := "masc", cas := "nom" }) }
      = .error () ∧
    (Num2Word_CH_SG.to_ordinal [] 3
        { declension := "schwach", gender := "masc", cas := "nom" } = .error () ∧
     convertSpans []
        [{ kind := "ORDINAL", text := "3.", start := 3, stop := 5,
           value := some (.ordV { declension := "schwach", gender := "masc", cas := "nom" }) }]
        "Am 3. Tag" = .error ()) :=
  ⟨rfl, List.mem_cons_self _ _, rfl,
    declension_miss_amended [] 3
      { declension := "schwach", gender := "masc", cas := "nom" }
      [{ kind := "ORDINAL", text := "3.", start := 3, stop := 5,
         value := some (.ordV { declension := "schwach", gender := "masc", cas := "nom" }) }]
      "Am 3. Tag"
      { kind := "ORDINAL", text := "3.", start := 3, stop := 5,
        value := some (.ordV { declension := "schwach", gender := "masc", cas := "nom" }) }
      rfl (List.mem_cons_self _ _) rfl⟩

/-- C3 counterexample: the token immediately preceding the numeral is a
determiner, yet `_is_ordinal_context` rejects the candidate because the
numeral token carries no `Gender` feature — the `[0]` access inside the
`try` raises and the `except` returns `(False, None)`. -/
theorem ordinal_context_det_rejected_cex :
    _is_ordinal_context
        [{ idx := 0, pos := "DET", gender := none, cas := none,
           numberPlur := false, headDetDefinite := none },
         { idx := 4, pos := "NUM", gender := none, cas := some "Nom",
           numberPlur := false, headDetDefinite := some (some "Def") }] 4 1
      = (false, none) ∧
    List.findIdx? (_number_token_at 4 1)
        [{ idx := 0, pos := "DET", gender := none, cas := none,
           numberPlur := false, headDetDefinite := none },
         { idx := 4, pos := "NUM", gender := none, cas := some "Nom",
           numberPlur := false, headDetDefinite := some (some "Def") }]
      = some 1 ∧
    (([{ idx := 0, pos := "DET", gender := none, cas := none,
           numberPlur := false, headDetDefinite := none },
         { idx := 4, pos := "NUM", gender := none, cas := some "Nom",
           numberPlur := false, headDetDefinite := some (some "Def") }] :
        List Token)[0]?).map
      Token.pos = some "DET" := by
  refine ⟨rfl, rfl, rfl⟩

/-- C3 amended: a raw digit+period ORDINAL candidate is accepted if and
only if the tagger locates the numeral token, a token immediately precedes
it whose category is determiner or adposition, and the numeral token
carries both a gender and a case feature; in every other situation
(including a determiner/adposition context with missing morphology) the
candidate is rejected and degrades to plain NUMBER. -/
theorem ordinal_context_gating_amended (doc : List Token) (offset nlen : Nat) :
    (_is_ordinal_context doc offset nlen).1 = true ↔
      ordinalAcceptedSpec doc offset nlen := by
  unfold _is_ordinal_context ordinalAcceptedSpec
  cases hf : doc.findIdx? (_number_token_at offset nlen) with
  | none => simp [hf]
  | some i =>
    cases hg : doc[i]? with
    | none => simp [hf, hg]
    | some tok =>
      by_cases hi : i = 0
      · subst hi
        simp [hf, hg]
      · cases hp : doc[i - 1]? with
        | none => simp [hf, hg, hi, hp]
        | some prev =>
          by_cases hpos : prev.pos = "DET" ∨ prev.pos = "ADP"
          · cases hgen : tok.gender with
            | none =>
              cases hcas : tok.cas with
              | none => simp [hf, hg, hi, hp, hpos, hgen, hcas]
              | some c => simp [hf, hg, hi, hp, hpos, hgen, hcas]
            | some g =>
              cases hcas : tok.cas with
              | none => simp [hf, hg, hi, hp, hpos, hgen, hcas]
              | some c => simp [hf, hg, hi, hp, hpos, hgen, hcas]
          · simp [hf, hg, hi, hp, hpos]
